import Mathlib

/-!
Shallow embedding of `src/core/model_handler.py` (class `ModelHandler`), the
training/evaluation harness of the IGND repository.

Conventions of the embedding:
* Python floats are modelled as rationals (`ℚ`), Python ints as `ℤ` (loop
  indices that `range` produces as `ℕ`).
* The metric dictionaries `_train_metrics` / `_dev_metrics` have the fixed
  key set written in `__init__`; they are modelled as functions out of the
  finite key type `MKey`.
* A raised Python exception is an `Except.error` carrying a `PyErr`.
* External objects — the differentiable model, the data loaders, the logger,
  the file system, the scheduler — are not part of this repository's shown
  code; their contributions enter as oracle arguments, and everything the
  harness itself computes is translated from the source.
-/

/-- A Python exception, identified by class and message. -/
inductive PyErr
  | nameError (msg : String)
  | typeError (msg : String)
  | valueError (msg : String)
  | keyError (msg : String)
deriving DecidableEq

/-- Modelled from the spec: the repository's `AverageMeter` utility lives in
`src/core/utils`, which is not among the given source files; the spec calls
it only "metric bookkeeping" / "BLEU/ROUGE metric aggregation". It is
modelled as the standard weighted running-average meter: `update v n` adds
`v * n` to a running sum and `n` to a count, `mean` divides the sum by the
count (0 for an empty meter), and `reset` clears both. -/
structure AverageMeter where
  sum : ℚ
  count : ℚ
deriving DecidableEq

/-- `AverageMeter.update(val, n)`: accumulate `val` with weight `n`. -/
def AverageMeter.update (m : AverageMeter) (v : ℚ) (n : ℚ) : AverageMeter :=
  { sum := m.sum + v * n, count := m.count + n }

/-- `AverageMeter.mean()`: the weighted mean accumulated so far. -/
def AverageMeter.mean (m : AverageMeter) : ℚ :=
  if m.count = 0 then 0 else m.sum / m.count

/-- `AverageMeter.reset()`: the cleared meter. -/
def AverageMeter.reset : AverageMeter :=
  { sum := 0, count := 0 }

/-- The fixed key set of the `_train_metrics` / `_dev_metrics` dictionaries
(`__init__`, model_handler.py lines 23-34): `Bleu_1 .. Bleu_4` and
`ROUGE_L`. -/
inductive MKey
  | bleu1
  | bleu2
  | bleu3
  | bleu4
  | rougeL
deriving DecidableEq

/-- The keys in the dictionaries' insertion order. -/
def mkeys : List MKey :=
  [MKey.bleu1, MKey.bleu2, MKey.bleu3, MKey.bleu4, MKey.rougeL]

/-- The string a key is written as in the source. -/
def mkeyStr : MKey → String
  | MKey.bleu1 => "Bleu_1"
  | MKey.bleu2 => "Bleu_2"
  | MKey.bleu3 => "Bleu_3"
  | MKey.bleu4 => "Bleu_4"
  | MKey.rougeL => "ROUGE_L"

/-- The configuration entries of `config` that `ModelHandler`'s control flow
reads and never writes. The one entry the harness mutates, `rl_ratio`, is
kept in the mutable state (`TrainState`) instead. -/
structure Config where
  max_epochs : ℤ
  patience : ℤ
  save_params : Bool
  eary_stop_metric : MKey
  rl_start_epoch : ℤ
  max_rl_ratio : ℚ
  rl_ratio_power : ℚ
  forcing_decay_type : Option String
  forcing_ratio : ℚ
  forcing_decay : ℚ
  pretrained : Bool
  verbose : ℤ
  only_test : Bool
  out_predictions : Bool

/-- `ModelHandler._stop_condition(epoch, patience)` (lines 339-345):
`no_improvement = epoch >= self._best_epoch + patience`,
`exceeded_max_epochs = epoch >= self.config['max_epochs']`, and the result is
`False if exceeded_max_epochs or no_improvement else True`. -/
def stop_condition (cfg : Config) (best_epoch : ℤ) (epoch : ℤ) (patience : ℤ) : Bool :=
  let no_improvement := decide (best_epoch + patience ≤ epoch)
  let exceeded_max_epochs := decide (cfg.max_epochs ≤ epoch)
  if exceeded_max_epochs || no_improvement then false else true

/-- `ModelHandler._set_forcing_ratio(step)` (lines 347-360). A falsy
`forcing_decay_type` (Python `None` or the empty string) returns the
configured `forcing_ratio` unchanged; `linear` and `exp` compute their decayed
ratio; the `sigmoid` branch evaluates `math.exp`, but the module never imports
`math` (its imports are lines 1-12), so reaching that branch raises
`NameError` before any arithmetic happens; any other truthy value raises
`ValueError`. -/
def set_forcing_ratio (cfg : Config) (step : ℕ) : Except PyErr ℚ :=
  if cfg.forcing_decay_type = none ∨ cfg.forcing_decay_type = some "" then
    Except.ok cfg.forcing_ratio
  else if cfg.forcing_decay_type = some "linear" then
    Except.ok (max 0 (cfg.forcing_ratio - cfg.forcing_decay * (step : ℚ)))
  else if cfg.forcing_decay_type = some "exp" then
    Except.ok (cfg.forcing_ratio * cfg.forcing_decay ^ step)
  else if cfg.forcing_decay_type = some "sigmoid" then
    Except.error (PyErr.nameError "name 'math' is not defined")
  else
    Except.error (PyErr.valueError "Unrecognized forcing_decay_type")

/-- The meter state of the handler: `_train_loss`, `_dev_loss`,
`_train_metrics`, `_dev_metrics` (`__init__`, lines 21-34). -/
structure Metrics where
  train_loss : AverageMeter
  dev_loss : AverageMeter
  train_metrics : MKey → AverageMeter
  dev_metrics : MKey → AverageMeter

/-- `ModelHandler._update_metrics(loss, metrics, batch_size, training)`
(lines 314-328). `if loss:` is Python float truthiness, i.e. `loss ≠ 0`;
each metric key the input dict holds is accumulated as `metrics[k] * 100`
weighted by `batch_size`; keys missing from the dict are skipped by the
`continue`. -/
def update_metrics (st : Metrics) (loss : ℚ) (metrics : MKey → Option ℚ)
    (batch_size : ℚ) (training : Bool) : Metrics :=
  if training then
    { st with
      train_loss := if loss = 0 then st.train_loss else st.train_loss.update loss 1,
      train_metrics := fun k =>
        match metrics k with
        | none => st.train_metrics k
        | some v => (st.train_metrics k).update (v * 100) batch_size }
  else
    { st with
      dev_loss := if loss = 0 then st.dev_loss else st.dev_loss.update loss 1,
      dev_metrics := fun k =>
        match metrics k with
        | none => st.dev_metrics k
        | some v => (st.dev_metrics k).update (v * 100) batch_size }

/-- `ModelHandler._reset_metrics()` (lines 330-337): every meter cleared. -/
def reset_metrics (_st : Metrics) : Metrics :=
  { train_loss := AverageMeter.reset, dev_loss := AverageMeter.reset,
    train_metrics := fun _ => AverageMeter.reset,
    dev_metrics := fun _ => AverageMeter.reset }

/-- Decimal digits of `n` left-padded with zeros to width five, for the
fractional part of a fixed-point rendering. -/
def pad5 (n : ℕ) : String :=
  let s := toString n
  String.mk (List.replicate (5 - s.length) '0') ++ s

/-- The rational-model counterpart of Python's fixed-point float formatting
with five decimals. The tie-breaking of binary floats is not reproduced; no
claim below depends on the rendered digits, only on a string being
produced. -/
def fmt5 (q : ℚ) : String :=
  let sgn := if q < 0 then "-" else ""
  let n : ℕ := (round (|q| * 100000) : ℤ).toNat
  sgn ++ toString (n / 100000) ++ "." ++ pad5 (n % 100000)

/-- `ModelHandler.metric_to_str(metrics)` (lines 296-300): one
`" | KEY = value"` piece per meter, in the dict's insertion order. -/
def metric_to_str (ms : MKey → AverageMeter) : String :=
  mkeys.foldl
    (fun acc k => acc ++ " | " ++ (mkeyStr k).toUpper ++ " = " ++ fmt5 (ms k).mean) ""

/-- `ModelHandler.plain_metric_to_str(metrics)` (lines 290-294), over a plain
value dict with the same key set. -/
def plain_metric_to_str (ms : MKey → ℚ) : String :=
  mkeys.foldl
    (fun acc k => acc ++ " | " ++ (mkeyStr k).toUpper ++ " = " ++ fmt5 (ms k)) ""

/-- The handler fields `self_report` reads (lines 273-288). -/
structure ReportCtx where
  epoch : ℤ
  n_train_batches : ℤ
  n_dev_batches : ℤ
  n_test_batches : ℤ
  n_test_examples : ℤ
  meters : Metrics

/-- `ModelHandler.self_report(step, mode)` (lines 273-288). The three
supported modes build a summary string. The final `else` executes
`raise ValueError('mode = ... not supported.' % mode)`: that format string
holds no percent conversion, so the `%` operation raises
`TypeError: not all arguments converted during string formatting` while the
`ValueError`'s argument is still being evaluated — the exception that escapes
is that `TypeError`, never a `ValueError`. -/
def self_report (rc : ReportCtx) (step : ℕ) (mode : String) : Except PyErr String :=
  if mode = "train" then
    Except.ok ("[train-" ++ toString rc.epoch ++ "] step: [" ++ toString step ++ " / "
      ++ toString rc.n_train_batches ++ "] | loss = " ++ fmt5 rc.meters.train_loss.mean
      ++ metric_to_str rc.meters.train_metrics)
  else if mode = "dev" then
    Except.ok ("[predict-" ++ toString rc.epoch ++ "] step: [" ++ toString step ++ " / "
      ++ toString rc.n_dev_batches ++ "] | loss = " ++ fmt5 rc.meters.dev_loss.mean
      ++ metric_to_str rc.meters.dev_metrics)
  else if mode = "test" then
    Except.ok ("[test] | test_exs = " ++ toString rc.n_test_examples ++ " | step: ["
      ++ toString step ++ " / " ++ toString rc.n_test_batches ++ "]"
      ++ metric_to_str rc.meters.dev_metrics)
  else
    Except.error (PyErr.typeError "not all arguments converted during string formatting")

/-- One fetched batch after `vectorize_input` returned a truthy value: the
fields `_run_epoch` reads from `x_batch`. -/
structure Batch where
  batch_size : ℚ
  target_src : List String

/-- What `model.predict` (the external model) returns: the fields
`_run_epoch` reads from `res`. `metrics` is a Python dict that may lack
keys. -/
structure PredRes where
  loss : ℚ
  metrics : MKey → Option ℚ
  predictions : List String

/-- The state `_run_epoch`'s loop body mutates (lines 222-271): the meters,
`_n_train_examples`, the `output`/`gold`/`test_list`/`some_index` lists and
the countdown `num` (initially 500). -/
structure EpochState where
  meters : Metrics
  n_train_examples : ℚ
  output : List String
  gold : List String
  test_list : List ℚ
  some_index : List ℕ
  num : ℤ

/-- Python dict subscription `d[k]`: `KeyError` when the key is absent. -/
def dictGet (d : MKey → Option ℚ) (k : MKey) : Except PyErr ℚ :=
  match d k with
  | some v => Except.ok v
  | none => Except.error (PyErr.keyError (mkeyStr k))

/-- One iteration of the `for step in range(...)` loop of
`ModelHandler._run_epoch` (lines 232-268). The fetched batch after
`vectorize_input` (`x_batch`, `none` when falsy) and the prediction result
`res` are oracle inputs; the returned flag records whether `model.predict`
was reached. A falsy `x_batch` hits the `continue` (lines 236-237), so
nothing after it runs. In training mode `_set_forcing_ratio` is evaluated
first and its exception, if any, propagates; so do the `KeyError` of
`metrics['Bleu_4']` in test mode and anything `self_report` raises in the
verbose branch. -/
def run_epoch_step (cfg : Config) (rc : ReportCtx) (mode : String) (training : Bool)
    (out_predictions : Bool) (step : ℕ) (x_batch : Option Batch) (res : PredRes)
    (s : EpochState) : Except PyErr (EpochState × Bool) :=
  match x_batch with
  | none => Except.ok (s, false)
  | some xb => do
    let _forcing ← if training then set_forcing_ratio cfg step else Except.ok 0
    let s1 : EpochState :=
      { s with meters := update_metrics s.meters res.loss res.metrics xb.batch_size training }
    let s2 ← if mode = "test" then do
        let bleu ← dictGet res.metrics MKey.bleu4
        if bleu < 1 / 100 then
          if 0 < s1.num then
            pure { s1 with num := s1.num - 1, some_index := s1.some_index ++ [step] }
          else pure s1
        else pure s1
      else pure s1
    let s3 : EpochState :=
      if training then { s2 with n_train_examples := s2.n_train_examples + xb.batch_size }
      else s2
    let _summary ← if 0 < cfg.verbose ∧ 0 < step ∧ (step : ℤ) % cfg.verbose = 0 then
        (do let str ← self_report rc step mode; pure (some str))
      else pure none
    let s4 ← if mode = "test" ∧ out_predictions then do
        let b4 ← dictGet res.metrics MKey.bleu4
        pure { s3 with test_list := s3.test_list ++ [b4],
                       output := s3.output ++ res.predictions,
                       gold := s3.gold ++ xb.target_src }
      else pure s3
    Except.ok (s4, true)

/-- The handler state `train()`'s loop mutates: `_epoch`, `_best_epoch`,
`_best_metrics`, the mutable entry `config['rl_ratio']`,
`_n_train_examples`, and a record of the epochs at which `model.save` wrote
a checkpoint. -/
structure TrainState where
  epoch : ℤ
  best_epoch : ℤ
  best_metrics : MKey → ℚ
  rl_ratio : ℚ
  n_train_examples : ℚ
  saves : List ℤ

/-- Everything external to the harness inside one iteration of `train()`'s
loop, per epoch number `e`: `devMeans e k` is the mean that dev meter `k`
holds after the dev `_run_epoch` of epoch `e`; `exDelta e` is what the
training `_run_epoch` of epoch `e` adds to `_n_train_examples`; `powf a b`
is Python's `a ** b` on floats, applied only at
`config['rl_ratio'] ** config['rl_ratio_power']` (line 159). -/
structure EpochOracle where
  devMeans : ℤ → MKey → ℚ
  exDelta : ℤ → ℚ
  powf : ℚ → ℚ → ℚ

/-- What one iteration of `train()`'s while-loop did: the `rl_ratio` passed
to the training `_run_epoch` (lines 123, 128), whether `model.save` ran
(lines 150-151), and whether the best-metric update fired (line 145). -/
structure IterReport where
  rl_ratio_used : ℚ
  saved : Bool
  improved : Bool

/-- One iteration of the `while` loop of `ModelHandler.train` (lines
121-159): increment `_epoch`; pass `config['rl_ratio']` to the training
epoch when `_epoch >= config['rl_start_epoch']` and 0 otherwise; run the
training and dev epochs (their external effects come from the oracle);
step the scheduler (external); on
`_best_metrics[esm] <= _dev_metrics[esm].mean()` record the new best epoch
and metrics and, under `save_params`, save a checkpoint; reset the meters;
finally under `rl_ratio > 0` update `config['rl_ratio']` to
`min(config['max_rl_ratio'], config['rl_ratio'] ** config['rl_ratio_power'])`. -/
def train_iter (cfg : Config) (o : EpochOracle) (s : TrainState) : TrainState × IterReport :=
  let epoch := s.epoch + 1
  let rl_ratio := if cfg.rl_start_epoch ≤ epoch then s.rl_ratio else 0
  let n_train_examples := s.n_train_examples + o.exDelta epoch
  let dev := o.devMeans epoch
  let improved := decide (s.best_metrics cfg.eary_stop_metric ≤ dev cfg.eary_stop_metric)
  let best_epoch := if improved then epoch else s.best_epoch
  let best_metrics := if improved then dev else s.best_metrics
  let saved := improved && cfg.save_params
  let rl_next :=
    if 0 < rl_ratio then min cfg.max_rl_ratio (o.powf s.rl_ratio cfg.rl_ratio_power)
    else s.rl_ratio
  ({ epoch := epoch, best_epoch := best_epoch, best_metrics := best_metrics,
     rl_ratio := rl_next, n_train_examples := n_train_examples,
     saves := if saved then s.saves ++ [epoch] else s.saves },
   { rl_ratio_used := rl_ratio, saved := saved, improved := improved })

/-- The `while self._stop_condition(self._epoch, self.config['patience'])`
loop of `train()` (lines 120-159). It terminates because the guard requires
`_epoch < max_epochs` and every iteration increments `_epoch`. -/
def train_loop (cfg : Config) (o : EpochOracle) (s : TrainState) : TrainState :=
  if stop_condition cfg s.best_epoch s.epoch cfg.patience then
    train_loop cfg o (train_iter cfg o s).1
  else s
termination_by (cfg.max_epochs - s.epoch).toNat
decreasing_by
  rename_i h
  simp only [stop_condition, Bool.or_eq_true, decide_eq_true_eq] at h
  split at h
  · exact absurd h (by simp)
  · rename_i hcond
    push_neg at hcond
    show (cfg.max_epochs - (s.epoch + 1)).toNat < (cfg.max_epochs - s.epoch).toNat
    omega

/-- The `ModelHandler` fields its entry points `train()` / `test()` touch.
The data loaders are external stream objects; only whether each is `None`
(line 82/89/97 of `__init__`) matters to the control flow modelled here. -/
structure Handler where
  train_loader : Option Unit
  dev_loader : Option Unit
  test_loader : Option Unit
  is_test : Bool
  meters : Metrics
  ts : TrainState
  saved_epoch : ℤ

/-- `ModelHandler.train` (lines 102-166). When the training loader or the
dev loader is `None` it prints a notice and returns at once (lines 103-105),
before any assignment runs. Otherwise it clears `is_test`, initializes
`_epoch = _best_epoch` (to `model.saved_epoch` under `pretrained`, else 0),
seeds `_best_metrics` from the current dev-meter means (lines 115-117),
resets the meters (line 118) and runs the while-loop; every iteration ends
in `_reset_metrics()`, so the meters come out cleared either way. The second
component is the list of epochs at which `model.save` wrote a checkpoint
during this call. -/
def ModelHandler.train (cfg : Config) (o : EpochOracle) (h : Handler) : Handler × List ℤ :=
  if h.train_loader = none ∨ h.dev_loader = none then (h, [])
  else
    let e0 : ℤ := if cfg.pretrained then h.saved_epoch else 0
    let best0 : MKey → ℚ := fun k => (h.meters.dev_metrics k).mean
    let s0 : TrainState :=
      { epoch := e0, best_epoch := e0, best_metrics := best0,
        rl_ratio := h.ts.rl_ratio, n_train_examples := h.ts.n_train_examples,
        saves := [] }
    let sF := train_loop cfg o s0
    ({ h with is_test := false, meters := reset_metrics h.meters, ts := sF }, sF.saves)

/-- An externally visible action of `test()`: a `model.save`, the restore of
the best checkpoint, or a prediction/reference file written. -/
inductive TestEvent
  | save_model (epoch : ℤ)
  | restore
  | write_predictions (lines : List String)
  | write_references (lines : List String)
deriving DecidableEq

/-- The external effect of `_run_epoch` over the test loader: the meters it
leaves behind and the `(output, gold)` pair it returns. -/
structure TestOracle where
  run : Metrics → Metrics × (List String × List String)

/-- `ModelHandler.test` (lines 168-220). When the test loader is `None` it
prints a notice and returns at once (lines 169-171): nothing is restored,
evaluated or saved. Otherwise: under `only_test` it first saves the model as
epoch 100 (lines 174-176), restores the best checkpoint (lines 180-182),
sets `is_test`, resets the meters, runs `_run_epoch` over the test loader,
and under `out_predictions` writes the prediction and reference files
(lines 207-217). -/
def ModelHandler.test (cfg : Config) (o : TestOracle) (h : Handler) : Handler × List TestEvent :=
  match h.test_loader with
  | none => (h, [])
  | some _ =>
    let ev0 : List TestEvent := if cfg.only_test then [TestEvent.save_model 100] else []
    let ev1 := ev0 ++ [TestEvent.restore]
    let m0 := reset_metrics h.meters
    let r := o.run m0
    let ev2 := ev1 ++ (if cfg.out_predictions then
        [TestEvent.write_predictions r.2.1, TestEvent.write_references r.2.2] else [])
    ({ h with is_test := true, meters := r.1 }, ev2)

/-! Concrete instances used by the closed witness and counterexample
statements below. -/

/-- All meters in their `__init__` state. -/
def metrics0 : Metrics :=
  { train_loss := AverageMeter.reset, dev_loss := AverageMeter.reset,
    train_metrics := fun _ => AverageMeter.reset,
    dev_metrics := fun _ => AverageMeter.reset }

/-- A baseline configuration. -/
def cfg0 : Config :=
  { max_epochs := 2, patience := 10, save_params := true,
    eary_stop_metric := MKey.bleu4, rl_start_epoch := 1, max_rl_ratio := 99 / 100,
    rl_ratio_power := 2, forcing_decay_type := none, forcing_ratio := 1,
    forcing_decay := 1 / 10, pretrained := false, verbose := 10,
    only_test := false, out_predictions := false }

/-- `cfg0` with linear forcing decay. -/
def cfgLin : Config :=
  { cfg0 with forcing_decay_type := some "linear" }

/-- `cfg0` with exponential forcing decay. -/
def cfgExp : Config :=
  { cfg0 with forcing_decay_type := some "exp", forcing_decay := 1 / 2 }

/-- `cfg0` with sigmoid forcing decay. -/
def cfgSig : Config :=
  { cfg0 with forcing_decay_type := some "sigmoid" }

/-- `cfg0` with `save_params` off. -/
def cfgC2 : Config :=
  { cfg0 with save_params := false }

/-- A concrete epoch oracle: zero dev means, no examples, `**` as squaring
under `rl_ratio_power = 2`. -/
def oW : EpochOracle :=
  { devMeans := fun _ _ => 0, exDelta := fun _ => 0, powf := fun a b => a * b }

/-- A concrete loop state before an epoch: fresh counters, so the zero dev
mean of `oW` ties the recorded best. -/
def sT0 : TrainState :=
  { epoch := 0, best_epoch := 0, best_metrics := fun _ => 0, rl_ratio := 1 / 2,
    n_train_examples := 0, saves := [] }

/-- A concrete report context. -/
def rc0 : ReportCtx :=
  { epoch := 1, n_train_batches := 100, n_dev_batches := 10, n_test_batches := 5,
    n_test_examples := 50, meters := metrics0 }

/-- A concrete test-epoch oracle that leaves the meters as given and returns
empty output/gold lists. -/
def otW : TestOracle :=
  { run := fun m => (m, ([], [])) }

/-- A handler whose three loaders are all `None`. -/
def h0 : Handler :=
  { train_loader := none, dev_loader := none, test_loader := none,
    is_test := false, meters := metrics0, ts := sT0, saved_epoch := 0 }

/-- A concrete prediction-metrics dict holding `Bleu_1` and nothing else. -/
def md0 : MKey → Option ℚ :=
  fun k => if k = MKey.bleu1 then some (1 / 2) else none

/-! Claim theorems. -/

/-- C1: for every epoch value `e` and patience `p`, `_stop_condition(e, p)`
returns True iff `e < max_epochs` and `e < _best_epoch + p`; consequently
the while-loop of `train()` takes another iteration exactly when its guard
holds, and stops with the state unchanged exactly when the epoch count has
reached `max_epochs` or `p` epochs have passed since the last best epoch. -/
theorem C1_stop_condition_iff (cfg : Config) (o : EpochOracle) (be e p : ℤ) (s : TrainState) :
    (stop_condition cfg be e p = true ↔ (e < cfg.max_epochs ∧ e < be + p)) ∧
    (stop_condition cfg s.best_epoch s.epoch cfg.patience = true →
      train_loop cfg o s = train_loop cfg o (train_iter cfg o s).1) ∧
    (stop_condition cfg s.best_epoch s.epoch cfg.patience = false →
      train_loop cfg o s = s) := by
  refine ⟨?_, ?_, ?_⟩
  · simp only [stop_condition]
    split
    · rename_i hc
      simp only [Bool.or_eq_true, decide_eq_true_eq] at hc
      constructor
      · intro hf
        exact absurd hf (by simp)
      · intro hand
        omega
    · rename_i hc
      simp only [Bool.or_eq_true, decide_eq_true_eq] at hc
      push_neg at hc
      constructor
      · intro _
        omega
      · intro _
        rfl
  · intro hst
    conv_lhs => rw [train_loop]
    rw [if_pos hst]
  · intro hst
    rw [train_loop, if_neg (by simp [hst])]

/-- C1 witness: at `max_epochs = 2`, `patience = 10`, epoch 0 and best epoch
0 the guard holds, so the loop unfolds to another iteration; at epoch 2 it is
exhausted and the loop returns its state unchanged. -/
theorem C1_stop_condition_iff_witness :
    stop_condition cfg0 0 0 10 = true ∧
    train_loop cfg0 oW sT0 = train_loop cfg0 oW (train_iter cfg0 oW sT0).1 ∧
    train_loop cfg0 oW { sT0 with epoch := 2 } = { sT0 with epoch := 2 } := by
  refine ⟨(C1_stop_condition_iff cfg0 oW 0 0 10 sT0).1.mpr (by decide), ?_, ?_⟩
  · exact (C1_stop_condition_iff cfg0 oW 0 0 10 sT0).2.1 (by decide)
  · exact (C1_stop_condition_iff cfg0 oW 0 0 10 { sT0 with epoch := 2 }).2.2 (by decide)

/-- C2 counterexample: with `save_params = False` and a dev early-stop mean
that ties the recorded best (a tie counts as an improvement), the iteration
does not call `model.save`, yet it does set `_best_epoch` to the current
epoch and replaces `_best_metrics` — so the best-update does not happen "in
exactly that same case" as the checkpoint write. -/
theorem C2_counterexample :
    (train_iter cfgC2 oW sT0).2.saved = false ∧
    (train_iter cfgC2 oW sT0).1.best_epoch = sT0.epoch + 1 ∧
    (train_iter cfgC2 oW sT0).1.best_metrics MKey.bleu4 = oW.devMeans 1 MKey.bleu4 ∧
    ¬ ((train_iter cfgC2 oW sT0).1.best_epoch = sT0.epoch + 1 ↔
        (train_iter cfgC2 oW sT0).2.saved = true) := by
  refine ⟨by decide, by decide, by decide, ?_⟩
  intro hiff
  exact absurd (hiff.mp (by decide)) (by decide)

/-- C2 amended: `model.save` runs iff `save_params` is set and the dev
early-stop mean of the just-finished epoch is at least the recorded best
(a tie counts as an improvement); `_best_epoch` and `_best_metrics` are
updated exactly when that mean is at least the recorded best, regardless of
`save_params`. -/
theorem C2_save_and_best_update (cfg : Config) (o : EpochOracle) (s : TrainState) :
    ((train_iter cfg o s).2.saved = true ↔
      (cfg.save_params = true ∧
        s.best_metrics cfg.eary_stop_metric ≤ o.devMeans (s.epoch + 1) cfg.eary_stop_metric)) ∧
    (s.best_metrics cfg.eary_stop_metric ≤ o.devMeans (s.epoch + 1) cfg.eary_stop_metric →
      (train_iter cfg o s).1.best_epoch = s.epoch + 1 ∧
      ∀ k, (train_iter cfg o s).1.best_metrics k = o.devMeans (s.epoch + 1) k) ∧
    (¬ s.best_metrics cfg.eary_stop_metric ≤ o.devMeans (s.epoch + 1) cfg.eary_stop_metric →
      (train_iter cfg o s).1.best_epoch = s.best_epoch ∧
      ∀ k, (train_iter cfg o s).1.best_metrics k = s.best_metrics k) := by
  by_cases himp : s.best_metrics cfg.eary_stop_metric ≤ o.devMeans (s.epoch + 1) cfg.eary_stop_metric
  · simp [train_iter, himp, and_comm]
  · simp [train_iter, himp]

/-- C2 witness: with `save_params` on and a tying dev mean, the amended
statement yields the save and the best-epoch update at a concrete input. -/
theorem C2_save_and_best_update_witness :
    (train_iter cfg0 oW sT0).2.saved = true ∧
    (train_iter cfg0 oW sT0).1.best_epoch = 1 := by
  have h := C2_save_and_best_update cfg0 oW sT0
  exact ⟨h.1.mpr ⟨rfl, by decide⟩, (h.2.1 (by decide)).1⟩

/-- C3: for every step `s`, with `forcing_decay_type = 'linear'` the call
returns `max(0, forcing_ratio - forcing_decay * s)` — hence never a negative
ratio; with `'exp'` it returns `forcing_ratio * forcing_decay ** s`; with a
falsy `forcing_decay_type` it returns the configured `forcing_ratio`
unchanged. -/
theorem C3_set_forcing_ratio (cfg : Config) (step : ℕ) :
    (cfg.forcing_decay_type = some "linear" →
      set_forcing_ratio cfg step =
        Except.ok (max 0 (cfg.forcing_ratio - cfg.forcing_decay * (step : ℚ))) ∧
      (0 : ℚ) ≤ max 0 (cfg.forcing_ratio - cfg.forcing_decay * (step : ℚ))) ∧
    (cfg.forcing_decay_type = some "exp" →
      set_forcing_ratio cfg step =
        Except.ok (cfg.forcing_ratio * cfg.forcing_decay ^ step)) ∧
    ((cfg.forcing_decay_type = none ∨ cfg.forcing_decay_type = some "") →
      set_forcing_ratio cfg step = Except.ok cfg.forcing_ratio) := by
  refine ⟨fun h => ⟨?_, le_max_left 0 _⟩, fun h => ?_, fun h => ?_⟩
  · simp [set_forcing_ratio, h]
  · simp [set_forcing_ratio, h]
  · rcases h with h | h <;> simp [set_forcing_ratio, h]

/-- C3 witness: the three branches evaluated at concrete configurations. -/
theorem C3_set_forcing_ratio_witness :
    set_forcing_ratio cfgLin 3 = Except.ok (max 0 (1 - (1 / 10) * (3 : ℚ))) ∧
    set_forcing_ratio cfgExp 2 = Except.ok (1 * (1 / 2 : ℚ) ^ 2) ∧
    set_forcing_ratio cfg0 5 = Except.ok 1 := by
  refine ⟨?_, ?_, ?_⟩
  · exact ((C3_set_forcing_ratio cfgLin 3).1 rfl).1
  · exact (C3_set_forcing_ratio cfgExp 2).2.1 rfl
  · exact (C3_set_forcing_ratio cfg0 5).2.2 (Or.inl rfl)

/-- C4: with `forcing_decay_type = 'sigmoid'` the call never returns the
spec's formula: the branch evaluates `math.exp`, the module has no
`import math` (its imports are lines 1-12), and the call raises `NameError`
for every step. -/
theorem C4_sigmoid_raises (cfg : Config) (step : ℕ)
    (h : cfg.forcing_decay_type = some "sigmoid") :
    set_forcing_ratio cfg step =
      Except.error (PyErr.nameError "name 'math' is not defined") := by
  simp [set_forcing_ratio, h]

/-- C4 witness: the sigmoid configuration at step 0. -/
theorem C4_sigmoid_raises_witness :
    set_forcing_ratio cfgSig 0 =
      Except.error (PyErr.nameError "name 'math' is not defined") :=
  C4_sigmoid_raises cfgSig 0 rfl

/-- C5: each iteration passes `config['rl_ratio']` to the training epoch
when the current epoch is at least `rl_start_epoch` and 0 otherwise; after
an epoch that ran with `rl_ratio > 0`, `config['rl_ratio']` becomes
`min(config['max_rl_ratio'], rl_ratio ** config['rl_ratio_power'])`, and
after an epoch with `rl_ratio == 0` it is unchanged. -/
theorem C5_rl_ratio_passing (cfg : Config) (o : EpochOracle) (s : TrainState) :
    ((train_iter cfg o s).2.rl_ratio_used =
      if cfg.rl_start_epoch ≤ s.epoch + 1 then s.rl_ratio else 0) ∧
    (0 < (train_iter cfg o s).2.rl_ratio_used →
      (train_iter cfg o s).1.rl_ratio =
        min cfg.max_rl_ratio
          (o.powf ((train_iter cfg o s).2.rl_ratio_used) cfg.rl_ratio_power)) ∧
    ((train_iter cfg o s).2.rl_ratio_used = 0 →
      (train_iter cfg o s).1.rl_ratio = s.rl_ratio) := by
  refine ⟨rfl, fun hpos => ?_, fun hz => ?_⟩
  · by_cases hst : cfg.rl_start_epoch ≤ s.epoch + 1
    · simp only [train_iter, hst, if_true] at hpos ⊢
      rw [if_pos hpos]
    · simp only [train_iter, hst, if_false] at hpos
      exact absurd hpos (by norm_num)
  · by_cases hst : cfg.rl_start_epoch ≤ s.epoch + 1
    · simp only [train_iter, hst, if_true] at hz ⊢
      rw [hz, if_neg (by norm_num)]
    · simp only [train_iter, hst, if_false] at hz ⊢
      rw [if_neg (by norm_num)]

/-- C5 witness: with `rl_start_epoch = 1` and `rl_ratio = 1/2` the first
epoch runs with ratio 1/2 > 0, and `config['rl_ratio']` is then
`min(99/100, (1/2) ** 2)` under the concrete `**` oracle. -/
theorem C5_rl_ratio_passing_witness :
    (train_iter cfg0 oW sT0).2.rl_ratio_used = (if (1 : ℤ) ≤ 0 + 1 then (1 / 2 : ℚ) else 0) ∧
    (train_iter cfg0 oW sT0).1.rl_ratio =
      min cfg0.max_rl_ratio (oW.powf ((train_iter cfg0 oW sT0).2.rl_ratio_used) cfg0.rl_ratio_power) := by
  have h := C5_rl_ratio_passing cfg0 oW sT0
  refine ⟨h.1, h.2.1 ?_⟩
  rw [h.1]
  norm_num [cfg0, sT0]

/-- C6: `self_report` produces a summary string for the modes `train`, `dev`
and `test`; for any other mode it raises — but the exception is a
`TypeError`, not the `ValueError` the claim states: the raise statement's
argument `'mode = ... not supported.' % mode` applies `%` to a format string
with no percent conversion, which raises
`TypeError: not all arguments converted during string formatting` before the
`ValueError` is ever constructed. -/
theorem C6_self_report_modes :
    (∃ s, self_report rc0 10 "train" = Except.ok s) ∧
    (∃ s, self_report rc0 10 "dev" = Except.ok s) ∧
    (∃ s, self_report rc0 10 "test" = Except.ok s) ∧
    self_report rc0 10 "foo" =
      Except.error (PyErr.typeError "not all arguments converted during string formatting") := by
  exact ⟨⟨_, rfl⟩, ⟨_, rfl⟩, ⟨_, rfl⟩, rfl⟩

/-- C7: `_update_metrics` with `training=True` leaves the dev loss and every
dev meter unchanged; each metric key present in the input dict is
accumulated into the matching train meter as `metrics[k] * 100` weighted by
`batch_size`, keys absent from the dict leave their meter unchanged, and
symmetrically with `training=False` only the dev side changes. -/
theorem C7_update_metrics_frame (st : Metrics) (loss : ℚ) (metrics : MKey → Option ℚ)
    (batch_size : ℚ) :
    ((update_metrics st loss metrics batch_size true).dev_loss = st.dev_loss ∧
     (∀ k, (update_metrics st loss metrics batch_size true).dev_metrics k =
        st.dev_metrics k) ∧
     (∀ k v, metrics k = some v →
        (update_metrics st loss metrics batch_size true).train_metrics k =
          (st.train_metrics k).update (v * 100) batch_size) ∧
     (∀ k, metrics k = none →
        (update_metrics st loss metrics batch_size true).train_metrics k =
          st.train_metrics k)) ∧
    ((update_metrics st loss metrics batch_size false).train_loss = st.train_loss ∧
     (∀ k, (update_metrics st loss metrics batch_size false).train_metrics k =
        st.train_metrics k) ∧
     (∀ k v, metrics k = some v →
        (update_metrics st loss metrics batch_size false).dev_metrics k =
          (st.dev_metrics k).update (v * 100) batch_size) ∧
     (∀ k, metrics k = none →
        (update_metrics st loss metrics batch_size false).dev_metrics k =
          st.dev_metrics k)) := by
  refine ⟨⟨rfl, fun k => rfl, fun k v h => ?_, fun k h => ?_⟩,
          ⟨rfl, fun k => rfl, fun k v h => ?_, fun k h => ?_⟩⟩ <;>
    simp [update_metrics, h]

/-- C7 witness: a dict holding `Bleu_1 = 1/2` and no other key accumulates
`50` with weight 2 into the train `Bleu_1` meter, leaves the train `ROUGE_L`
meter alone, and leaves the dev `Bleu_1` meter alone. -/
theorem C7_update_metrics_frame_witness :
    (update_metrics metrics0 1 md0 2 true).train_metrics MKey.bleu1 =
      (metrics0.train_metrics MKey.bleu1).update ((1 / 2) * 100) 2 ∧
    (update_metrics metrics0 1 md0 2 true).train_metrics MKey.rougeL =
      metrics0.train_metrics MKey.rougeL ∧
    (update_metrics metrics0 1 md0 2 true).dev_metrics MKey.bleu1 =
      metrics0.dev_metrics MKey.bleu1 := by
  have h := C7_update_metrics_frame metrics0 1 md0 2
  exact ⟨h.1.2.2.1 MKey.bleu1 (1 / 2) rfl, h.1.2.2.2 MKey.rougeL rfl, h.1.2.1 MKey.bleu1⟩

/-- C9: when `vectorize_input` returns a falsy value the loop body hits
`continue`: the iteration leaves the whole epoch state — meters,
`_n_train_examples`, `output`, `gold`, `test_list`, `some_index`, `num` —
unchanged, raises nothing, and `model.predict` is never reached (the
returned flag is `false`). -/
theorem C9_empty_batch_skipped (cfg : Config) (rc : ReportCtx) (mode : String)
    (training : Bool) (out_predictions : Bool) (step : ℕ) (res : PredRes)
    (s : EpochState) :
    run_epoch_step cfg rc mode training out_predictions step none res s =
      Except.ok (s, false) := rfl

/-- C10: with no training loader or no dev loader, `train()` returns at once
with the handler unchanged and no checkpoint written; with no test loader,
`test()` returns at once with the handler unchanged and no save, restore or
file write performed. -/
theorem C10_missing_loader_noop (cfg : Config) (o : EpochOracle) (ot : TestOracle)
    (h : Handler) :
    ((h.train_loader = none ∨ h.dev_loader = none) →
      ModelHandler.train cfg o h = (h, [])) ∧
    (h.test_loader = none → ModelHandler.test cfg ot h = (h, [])) := by
  constructor
  · intro hn
    unfold ModelHandler.train
    rw [if_pos hn]
  · intro hn
    unfold ModelHandler.test
    rw [hn]

/-- C10 witness: the handler with all three loaders `None` comes back
unchanged from both entry points. -/
theorem C10_missing_loader_noop_witness :
    ModelHandler.train cfg0 oW h0 = (h0, []) ∧
    ModelHandler.test cfg0 otW h0 = (h0, []) :=
  ⟨(C10_missing_loader_noop cfg0 oW otW h0).1 (Or.inl rfl),
   (C10_missing_loader_noop cfg0 oW otW h0).2 rfl⟩
